import Mathlib

/-!
Verification of `miio/click_common.py` against its specification.

This file shallowly embeds the command-registration and dispatch layer of
the module: the option validators, the exception-handling group wrapper,
the metaclass command registry, the command descriptor with its decorator
pipeline, the device-group construction, and the echo decorator.
External collaborators (the `click` parsing engine and the `ipaddress`
standard-library parser) are modelled as parameters or as small records
holding exactly the fields this layer touches.
-/

namespace ClickCommon

/-! ### Validators (click_common.py lines 22-34) -/

/-- Model of `validate_ip` (lines 22-27).  The `ipaddress.ip_address`
stdlib parser is an external collaborator, so it is a parameter: it
either produces a parsed address or raises `ValueError` with a message
`ex` describing the failure.  On success the raw string is returned
unchanged; on failure a `BadParameter` carrying the text
`Invalid IP: ` followed by the exception text is raised.  The unused
`ctx`/`param` click-callback arguments are omitted. -/
def validate_ip {IPAddr : Type} (ip_address : String → Except String IPAddr)
    (value : String) : Except String String :=
  match ip_address value with
  | .ok _ => .ok value
  | .error ex => .error ("Invalid IP: " ++ ex)

/-- Model of `validate_token` (lines 30-34): succeeds returning the value
unchanged when its length is exactly 32, otherwise raises `BadParameter`
citing the actual length.  The unused `ctx`/`param` arguments are
omitted. -/
def validate_token (value : String) : Except String String :=
  let token_len := value.length
  if token_len ≠ 32 then
    .error ("Token length != 32 chars: " ++ toString token_len)
  else
    .ok value

/-! ### ExceptionHandlerGroup (click_common.py lines 37-49) -/

/-- A Python exception as observed by `ExceptionHandlerGroup.__call__`:
either a `miio.DeviceException` (with its message) or an exception of
any other class. -/
inductive PyExc where
  | deviceException (msg : String)
  | other (clsName : String) (msg : String)
deriving DecidableEq, Repr

/-- Model of `click.style(s, fg='red', bold=True)`: wraps the text in the
ANSI escape sequences click emits for red/bold. -/
def style_red_bold (s : String) : String :=
  "\x1b[31m\x1b[1m" ++ s ++ "\x1b[0m"

/-- The observable effect of one `ExceptionHandlerGroup.__call__`
invocation: the debug-level log lines, the lines echoed to standard
output, and the outcome (a normal return carrying `self.main`'s value,
`none` for Python `None`, or an uncaught exception). -/
structure CallEffect (α : Type) where
  debugLogs : List String
  printed : List String
  outcome : Except PyExc (Option α)

/-- Model of `ExceptionHandlerGroup.__call__` (lines 44-49).  The run of
`self.main(*args, **kwargs)` is an external event, passed in as its
result: either a value or a raised exception.  A `miio.DeviceException`
is caught: it is logged at debug level with `exc_info` and a styled
error line is echoed, and the method falls off the end (returns `None`).
Any other exception propagates. -/
def exceptionHandlerCall {α : Type} (main_result : Except PyExc α) :
    CallEffect α :=
  match main_result with
  | .ok v => ⟨[], [], .ok (some v)⟩
  | .error (.deviceException msg) =>
      ⟨["Exception: " ++ msg], [style_red_bold ("Error: " ++ msg)], .ok none⟩
  | .error (.other cls msg) => ⟨[], [], .error (.other cls msg)⟩

/-! ### Command descriptor (DeviceGroup.Command, lines 86-110) -/

/-- A Python function object as the descriptor machinery sees it: its
`__name__`, its `__doc__` (possibly absent), and the underlying callable
of some type `F`. -/
structure PyFunc (F : Type) where
  funcName : String
  doc : Option String
  impl : F

/-- State of a `DeviceGroup.Command` right after `__init__`
(lines 87-91): the optional explicit name, the decorator list — stored
reversed, as `__init__` does `self.decorators.reverse()` — and the
`help` entry of the extra keyword configuration (`none` models both an
absent key and Python `None`, which click treats alike). -/
structure CommandInit (F : Type) where
  name : Option String
  decorators : List (F → F)
  kwargs_help : Option String

/-- Model of `DeviceGroup.Command.__init__` (lines 87-91): records the
name and kwargs and reverses the declared decorator sequence. -/
def commandInit {F : Type} (name : Option String) (decorators : List (F → F))
    (kwargs_help : Option String) : CommandInit F :=
  ⟨name, decorators.reverse, kwargs_help⟩

/-- A `DeviceGroup.Command` after `__call__` has bound it to the
decorated method (lines 93-97): `kwargs.setdefault('help',
self.func.__doc__)` has been applied. -/
structure Command (F : Type) where
  name : Option String
  decorators : List (F → F)
  help : Option String
  func : PyFunc F

/-- Model of `DeviceGroup.Command.__call__` (lines 93-97): stores the
function and defaults the `help` kwarg to the function docstring. -/
def CommandInit.callOn {F : Type} (c : CommandInit F) (func : PyFunc F) :
    Command F :=
  { name := c.name, decorators := c.decorators,
    help := match c.kwargs_help with
      | some h => some h
      | none => func.doc,
    func := func }

/-- Model of the `command_name` property (lines 99-101):
`self.name or self.func.__name__.lower()`, where Python `or` also falls
through on an empty (falsy) explicit name. -/
def Command.command_name {F : Type} (c : Command F) : String :=
  match c.name with
  | some s => if s = "" then c.func.funcName.toLower else s
  | none => c.func.funcName.toLower

/-- The runnable command produced by `click.command(name, **kwargs)(func)`:
the external engine records the command name, the merged configuration
(here its `help` entry) and the callback it will invoke. -/
structure ClickCommand (F : Type) where
  cmdName : String
  help : Option String
  callback : F

/-- Model of `DeviceGroup.Command.wrap` (lines 103-106): folds the stored
(already reversed) decorator list over the callable, then registers the
result under `command_name` with the kwargs merged in. -/
def Command.wrap {F : Type} (c : Command F) (func : F) : ClickCommand F :=
  { cmdName := c.command_name,
    help := c.help,
    callback := c.decorators.foldl (fun f d => d f) func }

/-- Model of the module-level `device_command` helper (lines 160-161). -/
def device_command {F : Type} (decorators : List (F → F))
    (name : Option String) (kwargs_help : Option String) : CommandInit F :=
  commandInit name decorators kwargs_help

/-! ### Python dict with string keys

`DeviceGroupMeta.__new__` builds `commands` as a `dict`; assignment
updates an existing key in place, otherwise appends a new entry. -/

/-- One `commands[k] = v` assignment on a Python dict modelled as an
entry list. -/
def dictInsert {β : Type} (d : List (String × β)) (k : String) (v : β) :
    List (String × β) :=
  match d with
  | [] => [(k, v)]
  | p :: rest => if p.1 = k then (k, v) :: rest else p :: dictInsert rest k v

/-- Dict lookup: the value stored at key `k`, if any. -/
def dictFind {β : Type} (d : List (String × β)) (k : String) : Option β :=
  (d.find? (fun p => p.1 = k)).map Prod.snd

/-! ### Command registry (DeviceGroupMeta.__new__, lines 61-81) -/

/-- A value in a class body's namespace, as `DeviceGroupMeta.__new__`
inspects it: not callable, callable without a `_device_group_command`
attribute, or callable carrying a bound command descriptor. -/
inductive NsVal (F : Type) where
  | notCallable
  | callableNoCmd
  | callableCmd (c : Command F)

/-- The loop of `DeviceGroupMeta.__new__` (lines 62-69) with its running
`commands` dict made explicit: each namespace entry that is callable and
carries a descriptor is assigned under its derived command name. -/
def collectCommandsLoop {F : Type} (ns : List (String × NsVal F))
    (commands : List (String × Command F)) : List (String × Command F) :=
  match ns with
  | [] => commands
  | (_, v) :: rest =>
      match v with
      | .callableCmd c =>
          collectCommandsLoop rest (dictInsert commands c.command_name c)
      | _ => collectCommandsLoop rest commands

/-- The `commands` table stored as `_device_group_commands`
(lines 62-71), built from an empty dict. -/
def collectCommands {F : Type} (ns : List (String × NsVal F)) :
    List (String × Command F) :=
  collectCommandsLoop ns []

/-- The descriptors attached to callable namespace entries, in
declaration order (the dict values before de-duplication by name). -/
def declaredCommands {F : Type} (ns : List (String × NsVal F)) :
    List (Command F) :=
  ns.filterMap (fun kv =>
    match kv.2 with
    | .callableCmd c => some c
    | _ => none)

/-! ### DeviceGroup (lines 112-157) -/

/-- A `click.Option` as `DEFAULT_PARAMS` constructs them: the declaration
strings, the `required` flag, and the validation callback. -/
structure ClickOption where
  decls : List String
  required : Bool
  callback : String → Except String String

/-- Model of `DeviceGroup.DEFAULT_PARAMS` (lines 112-115), parameterized
by the external `ipaddress.ip_address` parser that `validate_ip`
delegates to. -/
def DEFAULT_PARAMS {IPAddr : Type}
    (ip_address : String → Except String IPAddr) : List ClickOption :=
  [⟨["--ip"], true, validate_ip ip_address⟩,
   ⟨["--token"], true, validate_token⟩]

/-- The guard at the top of `DeviceGroup.__init__` (lines 122-127):
`getattr(device_class, '_device_group_commands', None)` is `none` when
the class never went through `DeviceGroupMeta`, and construction raises
`RuntimeError` before anything else happens; otherwise the table is
stored. -/
def deviceGroupInitCommands {F : Type}
    (device_group_commands : Option (List (String × Command F))) :
    Except String (List (String × Command F)) :=
  match device_group_commands with
  | none =>
      .error ("Class \x7b\x7d does not use DeviceGroupMeta meta class."
        ++ " It can not be used with DeviceGroup.")
  | some commands => .ok commands

/-- The `attrs.setdefault('params', self.DEFAULT_PARAMS)` step of
`DeviceGroup.__init__` (line 132): caller-supplied params are kept as
given, and only an absent entry falls back to the defaults. -/
def deviceGroupParams {IPAddr : Type}
    (ip_address : String → Except String IPAddr)
    (attrs_params : Option (List ClickOption)) : List ClickOption :=
  match attrs_params with
  | some ps => ps
  | none => DEFAULT_PARAMS ip_address

/-- Model of `DeviceGroup.list_commands` (lines 156-157):
`sorted(self.commands.keys())`. -/
def list_commands {β : Type} (commands : List (String × β)) : List String :=
  List.insertionSort (fun a b => a ≤ b) (commands.map Prod.fst)

/-! ### echo_return_status (lines 164-185) -/

/-- A Python value appearing in a command's arguments or returned by a
wrapped function. -/
inductive PyVal where
  | int (n : Int)
  | str (s : String)
  | pyNone
deriving DecidableEq, Repr

/-- Python `str()` of a value, as `str.format` renders a replacement
field. -/
def pyStr : PyVal → String
  | .int n => toString n
  | .str s => s
  | .pyNone => "None"

/-- Model of Python `str.strip()`: removes leading and trailing
whitespace. -/
def pyStrip (s : String) : String :=
  ⟨((s.data.dropWhile Char.isWhitespace).reverse.dropWhile
      Char.isWhitespace).reverse⟩

/-- One piece of a Python format string: a literal run, or a replacement
field naming a keyword argument. -/
inductive FmtPart where
  | lit (s : String)
  | field (key : String)

/-- Model of `template.format(**kwargs)`: substitutes each replacement
field from the keyword dict, raising `KeyError` (carrying the missing
key) when a referenced keyword is absent. -/
def strFormat : List FmtPart → List (String × PyVal) → Except String String
  | [], _ => .ok ""
  | .lit s :: rest, kwargs => (strFormat rest kwargs).map (fun t => s ++ t)
  | .field key :: rest, kwargs =>
      match dictFind kwargs key with
      | some v => (strFormat rest kwargs).map (fun t => pyStr v ++ t)
      | none => .error key

/-- A `msg_fmt` / `result_msg_fmt` argument of `echo_return_status`: a
format string (parsed into parts; the empty string parses to the empty
part list) or a callable formatter. -/
inductive Fmt where
  | str (parts : List FmtPart)
  | callable (f : List (String × PyVal) → String)

/-- Python truthiness of such an argument (`if msg_fmt:`): the empty
string is falsy, every callable is truthy. -/
def Fmt.truthy : Fmt → Bool
  | .str parts => !parts.isEmpty
  | .callable _ => true

/-- Rendering (lines 170-173 and 178-181): a callable is called with the
keyword arguments, a string is formatted against them. -/
def Fmt.render : Fmt → List (String × PyVal) → Except String String
  | .str parts, kwargs => strFormat parts kwargs
  | .callable f, kwargs => .ok (f kwargs)

/-- Model of one invocation of the wrapper that
`echo_return_status(msg_fmt, result_msg_fmt)` builds around `func`
(lines 166-184): if `msg_fmt` is truthy, render it and, when the
rendered text is non-empty, echo its stripped form; call `func`, store
its return value in the keyword dict under `result`; if
`result_msg_fmt` is truthy, render it against the augmented keywords
and, when non-empty, echo its stripped form.  The result is the echoed
lines and the wrapper's own return value — the Python body has no
`return` statement, so it falls off the end with `None`; a `KeyError`
escaping `str.format` is an error outcome. -/
def echoWrap (msg_fmt result_msg_fmt : Fmt)
    (func : List PyVal → List (String × PyVal) → PyVal)
    (args : List PyVal) (kwargs : List (String × PyVal)) :
    Except String (List String × Option PyVal) :=
  let pre : Except String (List String) :=
    if msg_fmt.truthy then
      match msg_fmt.render kwargs with
      | .error k => .error k
      | .ok msg => .ok (if msg = "" then [] else [pyStrip msg])
    else .ok []
  match pre with
  | .error k => .error k
  | .ok preLines =>
      let kwargs2 := dictInsert kwargs "result" (func args kwargs)
      if result_msg_fmt.truthy then
        match result_msg_fmt.render kwargs2 with
        | .error k => .error k
        | .ok result_msg =>
            .ok (preLines ++ (if result_msg = "" then [] else
              [pyStrip result_msg]), none)
      else .ok (preLines, none)

/-- A device class body declaring methods `status`, `on` and `off`, each
decorated as a device command named after its method. -/
def statusOnOffNs : List (String × NsVal Unit) :=
  [("status", .callableCmd
      ((commandInit (some "status") [] none).callOn ⟨"status", none, ()⟩)),
   ("on", .callableCmd
      ((commandInit (some "on") [] none).callOn ⟨"on", none, ()⟩)),
   ("off", .callableCmd
      ((commandInit (some "off") [] none).callOn ⟨"off", none, ()⟩))]

end ClickCommon

namespace ClickCommon

/-! ### Theorems for the validators and the exception handler -/

/-- C4: for every string, `validate_token` returns the input unchanged iff
its length is exactly 32; for any other length it fails with a parameter
error whose message cites the actual length found, and no character-set
check is performed (the result depends on the length alone). -/
theorem validate_token_spec (value : String) :
    (validate_token value = .ok value ↔ value.length = 32)
    ∧ (value.length ≠ 32 →
        validate_token value =
          .error ("Token length != 32 chars: " ++ toString value.length)) := by
  constructor
  · constructor
    · intro h
      by_contra hne
      simp [validate_token, hne] at h
    · intro h
      simp [validate_token, h]
  · intro h
    simp [validate_token, h]

/-- Witness for C4: the 32-character string of `a`s passes unchanged and
the empty string fails citing length 0. -/
theorem validate_token_spec_witness :
    validate_token "aaaaaaaaaaaaaaaaaaaaaaaaaaaaaaaa" =
      .ok "aaaaaaaaaaaaaaaaaaaaaaaaaaaaaaaa"
    ∧ validate_token "" = .error "Token length != 32 chars: 0" :=
  ⟨(validate_token_spec _).1.mpr (by decide),
   (validate_token_spec _).2 (by decide)⟩

/-- C5: for every string, `validate_ip` returns the input unchanged iff
the external `ipaddress.ip_address` parser accepts it as an IPv4 or IPv6
literal; on a parse failure it fails with a parameter error built from
the parser's exception text, and whenever that text names the invalid
input (as the stdlib message does), so does the produced error
message. -/
theorem validate_ip_spec {IPAddr : Type}
    (ip_address : String → Except String IPAddr) (value : String) :
    (validate_ip ip_address value = .ok value ↔ ∃ a, ip_address value = .ok a)
    ∧ (∀ ex, ip_address value = .error ex →
        validate_ip ip_address value = .error ("Invalid IP: " ++ ex)
        ∧ (value.data <:+: ex.data →
            value.data <:+: ("Invalid IP: " ++ ex).data)) := by
  constructor
  · constructor
    · intro h
      cases hp : ip_address value with
      | ok a => exact ⟨a, rfl⟩
      | error ex => simp [validate_ip, hp] at h
    · rintro ⟨a, ha⟩
      simp [validate_ip, ha]
  · intro ex hex
    refine ⟨by simp [validate_ip, hex], ?_⟩
    intro hinf
    have : ex.data <:+: ("Invalid IP: " ++ ex).data := by
      refine ⟨"Invalid IP: ".data, [], ?_⟩
      simp [String.data_append]
    exact hinf.trans this

/-- Witness for C5: with a parser modelling the stdlib failure message,
the input `not-an-ip` is rejected with an error that names it. -/
theorem validate_ip_spec_witness :
    validate_ip (fun s => (.error (s ++ " is invalid") : Except String Unit))
        "not-an-ip" =
      .error "Invalid IP: not-an-ip is invalid"
    ∧ "not-an-ip".data <:+: "Invalid IP: not-an-ip is invalid".data :=
  ⟨((validate_ip_spec (fun s => (.error (s ++ " is invalid") : Except String Unit))
      "not-an-ip").2 _ rfl).1,
   ((validate_ip_spec (fun s => (.error (s ++ " is invalid") : Except String Unit))
      "not-an-ip").2 _ rfl).2 ⟨[], " is invalid".data, rfl⟩⟩

/-- C6: a program invocation wrapped by `ExceptionHandlerGroup.__call__`
that raises a `miio.DeviceException` has the exception caught (the call
terminates normally, returning None), logged with trace detail at debug
level, and exactly one styled error line printed; an exception of any
other class propagates uncaught, with nothing printed or logged. -/
theorem exceptionHandlerCall_spec {α : Type} (main_result : Except PyExc α) :
    (∀ msg, main_result = .error (.deviceException msg) →
        exceptionHandlerCall main_result =
          ⟨["Exception: " ++ msg], [style_red_bold ("Error: " ++ msg)],
            .ok none⟩)
    ∧ (∀ cls msg, main_result = .error (.other cls msg) →
        exceptionHandlerCall main_result = ⟨[], [], .error (.other cls msg)⟩)
    ∧ (∀ v, main_result = .ok v →
        exceptionHandlerCall main_result = ⟨[], [], .ok (some v)⟩) := by
  refine ⟨?_, ?_, ?_⟩ <;> intro _ <;> intros <;> subst_eqs <;> rfl

/-! ### Dict lemmas -/

/-- An assignment stores its value at its key. -/
theorem dictFind_dictInsert_self {β : Type} (d : List (String × β))
    (k : String) (v : β) : dictFind (dictInsert d k v) k = some v := by
  induction d with
  | nil => simp [dictInsert, dictFind, List.find?]
  | cons p rest ih =>
    by_cases h : p.1 = k
    · simp [dictInsert, h, dictFind, List.find?]
    · simpa [dictInsert, h, dictFind, List.find?] using ih

/-- An assignment leaves every other key unchanged. -/
theorem dictFind_dictInsert_ne {β : Type} (d : List (String × β))
    (k n : String) (v : β) (h : n ≠ k) :
    dictFind (dictInsert d k v) n = dictFind d n := by
  induction d with
  | nil => simp [dictInsert, dictFind, List.find?, Ne.symm h]
  | cons p rest ih =>
    rcases p with ⟨pk, pv⟩
    by_cases hp : pk = k
    · subst hp
      simp [dictInsert, dictFind, List.find?, Ne.symm h]
    · by_cases hn : pk = n
      · simp [dictInsert, hp, dictFind, List.find?, hn, h]
      · simpa [dictInsert, hp, dictFind, List.find?, hn] using ih

/-- The key list after an assignment: unchanged when the key was already
present, otherwise extended at the end by the new key. -/
theorem keys_dictInsert {β : Type} (d : List (String × β)) (k : String)
    (v : β) :
    (dictInsert d k v).map Prod.fst =
      if k ∈ d.map Prod.fst then d.map Prod.fst
      else d.map Prod.fst ++ [k] := by
  induction d with
  | nil => simp [dictInsert]
  | cons p rest ih =>
    by_cases h : p.1 = k
    · simp [dictInsert, h]
    · have hne : ¬ k = p.1 := fun hk => h hk.symm
      by_cases hk : k ∈ rest.map Prod.fst
      · simp [dictInsert, h, ih, hk, hne]
      · simp [dictInsert, h, ih, hk, hne]

/-- Assignments preserve key uniqueness. -/
theorem nodup_keys_dictInsert {β : Type} (d : List (String × β))
    (k : String) (v : β) (h : (d.map Prod.fst).Nodup) :
    ((dictInsert d k v).map Prod.fst).Nodup := by
  rw [keys_dictInsert]
  by_cases hk : k ∈ d.map Prod.fst
  · simpa [hk]
  · simp only [hk, if_false]
    simp [List.nodup_append, h, hk]

/-- A key is present exactly when lookup succeeds. -/
theorem mem_keys_iff_dictFind_isSome {β : Type} (d : List (String × β))
    (k : String) : k ∈ d.map Prod.fst ↔ (dictFind d k).isSome := by
  constructor
  · intro hk
    rcases List.mem_map.mp hk with ⟨p, hp, hpk⟩
    have hs : (d.find? (fun p => p.1 = k)).isSome :=
      List.find?_isSome.mpr ⟨p, hp, by simp [hpk]⟩
    rcases Option.isSome_iff_exists.mp hs with ⟨q, hq⟩
    simp [dictFind, hq]
  · intro hs
    cases hf : d.find? (fun p => p.1 = k) with
    | none => rw [dictFind, hf] at hs; simp at hs
    | some q =>
      have hq := List.find?_some hf
      have hmem := List.mem_of_find?_eq_some hf
      exact List.mem_map.mpr ⟨q, hmem, by simpa using hq⟩

/-! ### Registry-collection lemmas -/

/-- Running the registration loop from any accumulator: a name resolves
to the latest declared descriptor deriving to it, and otherwise to
whatever the accumulator held. -/
theorem collectCommandsLoop_find {F : Type} (ns : List (String × NsVal F))
    (acc : List (String × Command F)) (n : String) :
    dictFind (collectCommandsLoop ns acc) n =
      match (declaredCommands ns).reverse.find?
          (fun c => c.command_name = n) with
      | some c => some c
      | none => dictFind acc n := by
  induction ns generalizing acc with
  | nil => simp [collectCommandsLoop, declaredCommands]
  | cons kv rest ih =>
    rcases kv with ⟨key, v⟩
    cases v with
    | notCallable =>
      simpa [collectCommandsLoop, declaredCommands] using ih acc
    | callableNoCmd =>
      simpa [collectCommandsLoop, declaredCommands] using ih acc
    | callableCmd c =>
      have hdecl : declaredCommands ((key, NsVal.callableCmd c) :: rest)
          = c :: declaredCommands rest := by
        simp [declaredCommands]
      rw [collectCommandsLoop, hdecl, ih]
      rw [List.reverse_cons, List.find?_append]
      cases hfind : (declaredCommands rest).reverse.find?
          (fun d => d.command_name = n) with
      | some c' => simp
      | none =>
        by_cases hn : c.command_name = n
        · subst hn
          simp [List.find?, dictFind_dictInsert_self]
        · simp [List.find?, hn, dictFind_dictInsert_ne _ _ _ _ (Ne.symm hn)]

/-- The registration loop preserves key uniqueness of the running dict. -/
theorem collectCommandsLoop_nodup {F : Type} (ns : List (String × NsVal F))
    (acc : List (String × Command F))
    (h : (acc.map Prod.fst).Nodup) :
    ((collectCommandsLoop ns acc).map Prod.fst).Nodup := by
  induction ns generalizing acc with
  | nil => simpa [collectCommandsLoop]
  | cons kv rest ih =>
    rcases kv with ⟨key, v⟩
    cases v with
    | notCallable => exact ih acc h
    | callableNoCmd => exact ih acc h
    | callableCmd c =>
      exact ih _ (nodup_keys_dictInsert _ _ _ h)

/-! ### Claim theorems for the registry, descriptor and listing -/

/-- C1: when a device class body finishes evaluating,
`DeviceGroupMeta.__new__` collects every callable attribute carrying a
command descriptor into a mapping from command name to descriptor; the
table has at most one entry per name, a name is present exactly when
some declared method derives to it, and when two methods derive to the
same command name the single surviving entry is the later-declared
descriptor (the lookup finds the last declaration). -/
theorem collectCommands_spec {F : Type} (ns : List (String × NsVal F))
    (n : String) :
    ((collectCommands ns).map Prod.fst).Nodup
    ∧ dictFind (collectCommands ns) n =
        (declaredCommands ns).reverse.find? (fun c => c.command_name = n)
    ∧ (n ∈ (collectCommands ns).map Prod.fst ↔
        ∃ c ∈ declaredCommands ns, c.command_name = n) := by
  have hfind : dictFind (collectCommands ns) n =
      (declaredCommands ns).reverse.find? (fun c => c.command_name = n) := by
    rw [collectCommands, collectCommandsLoop_find]
    cases hf : (declaredCommands ns).reverse.find?
        (fun c => c.command_name = n) with
    | some c => rfl
    | none => simp [dictFind]
  refine ⟨collectCommandsLoop_nodup _ _ (by simp), hfind, ?_⟩
  rw [mem_keys_iff_dictFind_isSome, hfind, List.find?_isSome]
  constructor
  · rintro ⟨c, hc, hcn⟩
    exact ⟨c, List.mem_reverse.mp hc, by simpa using hcn⟩
  · rintro ⟨c, hc, hcn⟩
    exact ⟨c, List.mem_reverse.mpr hc, by simpa using hcn⟩

/-- C2: materializing a command descriptor applies its declared
decorators in reverse-of-declaration order — the callback of the wrapped
command is the right fold of the declared decorator sequence over the
final callable, so the first-declared decorator is the outermost
wrapper — and the help configuration defaults to the bound method's
docstring when no help override is given, while an explicit override is
kept. -/
theorem command_materialize_spec {F : Type} (name : Option String)
    (decorators : List (F → F)) (hlp : String) (pf : PyFunc F) (g : F) :
    (∀ kwargs_help : Option String,
        (((commandInit name decorators kwargs_help).callOn pf).wrap g).callback
          = decorators.foldr (fun d f => d f) g)
    ∧ (((commandInit name decorators none).callOn pf).wrap g).help = pf.doc
    ∧ (((commandInit name decorators (some hlp)).callOn pf).wrap g).help
        = some hlp := by
  refine ⟨?_, rfl, rfl⟩
  intro kwargs_help
  show decorators.reverse.foldl (fun f d => d f) g = _
  rw [List.foldl_reverse]

/-- C3: `list_commands` returns all registered command names of the
table in lexicographic order, deterministically (it is a sorted
permutation of the keys); in particular, for a class declaring commands
`status`, `on` and `off`, the listing is exactly
`["off", "on", "status"]`. -/
theorem list_commands_spec {β : Type} (commands : List (String × β)) :
    (list_commands commands).Sorted (· ≤ ·)
    ∧ (list_commands commands).Perm (commands.map Prod.fst)
    ∧ list_commands (collectCommands statusOnOffNs)
        = ["off", "on", "status"] := by
  refine ⟨List.sorted_insertionSort _ _, List.perm_insertionSort _ _, ?_⟩
  have h : (collectCommands statusOnOffNs).map Prod.fst
      = ["status", "on", "off"] := by decide
  rw [list_commands, h]
  simp [List.insertionSort, List.orderedInsert]
  decide

/-- Witness for C6: a raised `DeviceException` with message `boom` is
caught, yielding one red/bold error line, one debug log line, and a
normal (None) return; a raised `ValueError` propagates uncaught. -/
theorem exceptionHandlerCall_spec_witness :
    exceptionHandlerCall (α := Nat) (.error (.deviceException "boom")) =
      ⟨["Exception: boom"], [style_red_bold "Error: boom"], .ok none⟩
    ∧ exceptionHandlerCall (α := Nat) (.error (.other "ValueError" "bad")) =
      ⟨[], [], .error (.other "ValueError" "bad")⟩ :=
  ⟨(exceptionHandlerCall_spec (α := Nat)
      (.error (.deviceException "boom"))).1 "boom" rfl,
   (exceptionHandlerCall_spec (α := Nat)
      (.error (.other "ValueError" "bad"))).2.1 "ValueError" "bad" rfl⟩

/-! ### DeviceGroup construction (C8, C9) -/

/-- Counterexample to C8 as stated: the default connection options are
named `--ip` and `--token` — there is no option named `--address` — and
when the caller supplies its own `params` (here a single `--flavor`
option) the defaults are not added to them: the resulting parameter
list contains neither `--ip` nor `--token`. -/
theorem default_params_counterexample :
    (DEFAULT_PARAMS (fun s => (.error s : Except String Unit))).map
        ClickOption.decls = [["--ip"], ["--token"]]
    ∧ ((DEFAULT_PARAMS (fun s => (.error s : Except String Unit))).all
        (fun o => !o.decls.contains "--address")) = true
    ∧ (deviceGroupParams (fun s => (.error s : Except String Unit))
          (some [⟨["--flavor"], false, fun s => .ok s⟩])).map
        ClickOption.decls = [["--flavor"]] :=
  ⟨rfl, rfl, rfl⟩

/-- C8 (amended): a device command group constructed without
caller-supplied `params` receives the default CLI parameters — a
required option named `--ip` validated by the address validator and a
required option named `--token` validated by the token validator — and
caller-supplied `params` replace these defaults entirely rather than
being added to them. -/
theorem deviceGroupParams_spec {IPAddr : Type}
    (ip_address : String → Except String IPAddr)
    (attrs_params : List ClickOption) :
    deviceGroupParams ip_address none = DEFAULT_PARAMS ip_address
    ∧ (DEFAULT_PARAMS ip_address).map ClickOption.decls
        = [["--ip"], ["--token"]]
    ∧ (DEFAULT_PARAMS ip_address).map ClickOption.required = [true, true]
    ∧ (DEFAULT_PARAMS ip_address).map ClickOption.callback
        = [validate_ip ip_address, validate_token]
    ∧ deviceGroupParams ip_address (some attrs_params) = attrs_params :=
  ⟨rfl, rfl, rfl, rfl, rfl⟩

/-- C9: constructing a `DeviceGroup` from a class that carries no
per-class command table (it never went through `DeviceGroupMeta`, so
`getattr(..., '_device_group_commands', None)` yields nothing) raises a
fatal `RuntimeError` immediately at construction time — and this is the
only way construction fails; nothing in this module catches it. -/
theorem deviceGroupInit_spec {F : Type}
    (commands : List (String × Command F)) :
    (∃ msg, deviceGroupInitCommands (F := F) none = .error msg)
    ∧ deviceGroupInitCommands (some commands) = .ok commands
    ∧ ∀ device_group_commands : Option (List (String × Command F)),
        (∃ msg, deviceGroupInitCommands device_group_commands = .error msg)
          ↔ device_group_commands = none := by
  refine ⟨⟨_, rfl⟩, rfl, ?_⟩
  intro opt
  cases opt with
  | none => exact ⟨fun _ => rfl, fun _ => ⟨_, rfl⟩⟩
  | some t =>
    constructor
    · rintro ⟨msg, hmsg⟩
      simp [deviceGroupInitCommands] at hmsg
    · intro h
      simp at h

/-! ### Echo decorator (C7, C10) -/

/-- Counterexample to C7 as stated: with the pre-template `" "` (a
single space — non-empty, hence truthy) the wrapper does print a line
even though the message is empty after trimming: the rendered text
`" "` strips to `""`, and that empty line is echoed.  So a message is
not "printed only if non-empty after trimming": the print condition is
evaluated before trimming. -/
theorem echoWrap_blank_counterexample :
    echoWrap (.str [.lit " "]) (.str []) (fun _ _ => .int 10) [] []
      = .ok ([""], none)
    ∧ pyStrip " " = "" :=
  ⟨rfl, rfl⟩

/-- C7 (amended): the echo decorator with pre-template `doing {x}` and
post-template `got {result}`, wrapping a function returning `10` and
invoked with `x=5`, prints exactly `doing 5` before the wrapped call and
`got 10` after it, in that order; the wrapped function's return value is
injected into the keyword set under the key `result` before the
post-template is rendered; and each message is printed exactly when the
rendered text is non-empty before trimming — what is printed is the
trimmed rendering, which may itself be empty. -/
theorem echoWrap_spec
    (func : List PyVal → List (String × PyVal) → PyVal)
    (args : List PyVal) (kwargs : List (String × PyVal)) (s : String) :
    echoWrap (.str [.lit "doing ", .field "x"])
        (.str [.lit "got ", .field "result"])
        (fun _ _ => .int 10) [] [("x", .int 5)]
      = .ok (["doing 5", "got 10"], none)
    ∧ (pyStr (func args kwargs) ≠ "" →
        echoWrap (.str []) (.str [.field "result"]) func args kwargs
          = .ok ([pyStrip (pyStr (func args kwargs))], none))
    ∧ (s ≠ "" →
        echoWrap (.str [.lit s]) (.str []) func args kwargs
          = .ok ([pyStrip s], none))
    ∧ echoWrap (.str []) (.str []) func args kwargs = .ok ([], none) := by
  refine ⟨rfl, ?_, ?_, rfl⟩
  · intro h
    simp [echoWrap, Fmt.truthy, Fmt.render, strFormat, Except.map,
      dictFind_dictInsert_self, String.append_empty, h]
  · intro h
    simp [echoWrap, Fmt.truthy, Fmt.render, strFormat, Except.map,
      String.append_empty, h]

/-- Witness for the amended C7: a post-template referencing `result`
prints the stripped rendering of the injected return value `10`, and a
blank (but truthy) pre-template prints the (empty) stripped line. -/
theorem echoWrap_spec_witness :
    echoWrap (.str []) (.str [.field "result"]) (fun _ _ => .int 10) [] []
      = .ok (["10"], none)
    ∧ echoWrap (.str [.lit " x "]) (.str []) (fun _ _ => .int 10) [] []
      = .ok (["x"], none) :=
  ⟨(echoWrap_spec (fun _ _ => PyVal.int 10) [] [] " x ").2.1 (by decide),
   (echoWrap_spec (fun _ _ => PyVal.int 10) [] [] " x ").2.2.1 (by decide)⟩

/-- C10: the wrapper built by `echo_return_status` always returns `None`
itself — the wrapped function's return value is used only to render the
post-execution message and is never propagated to the wrapper's
caller. -/
theorem echoWrap_returns_none (msg_fmt result_msg_fmt : Fmt)
    (func : List PyVal → List (String × PyVal) → PyVal)
    (args : List PyVal) (kwargs : List (String × PyVal))
    (lines : List String) (ret : Option PyVal)
    (h : echoWrap msg_fmt result_msg_fmt func args kwargs = .ok (lines, ret)) :
    ret = none := by
  simp only [echoWrap] at h
  repeat' split at h
  all_goals simp_all

/-- Witness for C10: the doing/got invocation of the wrapper returns
`None` even though the wrapped function returned `10`. -/
theorem echoWrap_returns_none_witness :
    echoWrap (.str [.lit "doing ", .field "x"])
        (.str [.lit "got ", .field "result"])
        (fun _ _ => .int 10) [] [("x", .int 5)]
      = .ok (["doing 5", "got 10"], none)
    ∧ (none : Option PyVal) = none :=
  ⟨rfl,
   echoWrap_returns_none (.str [.lit "doing ", .field "x"])
     (.str [.lit "got ", .field "result"]) (fun _ _ => .int 10) []
     [("x", .int 5)] ["doing 5", "got 10"] none rfl⟩

end ClickCommon
